import Mathlib

set_option linter.unusedVariables false
set_option maxRecDepth 100000

/-!
Verification of the core logic of `base_image_editor.py`: the Output Namer
(`generate_output_filename`, the purge loops of `generate_variations`,
`get_base_image_path`) and the Prompt Composer (`create_variation_prompt`,
`generate_random_outfit_prompt`, `generate_background_variation`), together
with the per-variation error-handling of the batch driver.

Python strings are modelled as Lean `String`; the handful of Python string
operations used by the source (`startswith`, `endswith`, `in`, `find`,
slicing, `replace`, `lower`, `strip`, `f"{n:02d}"`) are given explicit
executable models over `String.data` so that every theorem can be settled by
computation and by elementary list lemmas.
-/

namespace BaseImageEditor

/-- Python `s.startswith(pat)`: the first `len(pat)` characters of `s` equal
`pat`. -/
def strStarts (s pat : String) : Bool :=
  s.data.take pat.data.length == pat.data

/-- Python `s.endswith(pat)`: the last `len(pat)` characters of `s` equal
`pat` (checked on the reversed character list). -/
def strEnds (s pat : String) : Bool :=
  s.data.reverse.take pat.data.length == pat.data.reverse

/-- Occurrence of `pat` as a contiguous substring of a character list:
`pat` matches at the current position, or strictly later. -/
def occursAux (pat : List Char) : List Char → Bool
  | [] => pat == []
  | a :: t => ((a :: t).take pat.length == pat) || occursAux pat t

/-- `pat` occurs as a contiguous substring of `s` (Python `pat in s`). -/
def strOccurs (pat s : String) : Bool :=
  occursAux pat.data s.data

/-- Python `s.find(c)` for a single character `c` that is present in `s`
(every call site first checks `c in s`): index of the first occurrence. -/
def strFind (s : String) (c : Char) : Nat :=
  (s.data.takeWhile (fun a => a != c)).length

/-- Python `f"{n:02d}"` for a non-negative `n`: decimal digits, left-padded
with `0` to width 2. -/
def pad2 (n : Nat) : String :=
  if n < 10 then "0" ++ toString n else toString n

/-- Python `s.replace(old, new)` for a non-empty pattern `old`: scan left to
right; at each position either consume a non-overlapping occurrence of the
pattern and emit the replacement, or keep one character.  (Both call sites
in the source pass the non-empty constant patterns `"snapchat_"` and
`"snapchat_same_"`.)  The recursion is driven by a fuel argument so that the
kernel can evaluate it; each step strictly shortens the string, so fuel
`s.length` always suffices. -/
def pyReplaceAux (pat rep : List Char) : Nat → List Char → List Char
  | 0, s => s
  | _ + 1, [] => []
  | fuel + 1, a :: t =>
    if pat ≠ [] ∧ (a :: t).take pat.length = pat then
      rep ++ pyReplaceAux pat rep fuel ((a :: t).drop pat.length)
    else
      a :: pyReplaceAux pat rep fuel t

/-- `str.replace` lifted to `String`. -/
def strReplace (s pat rep : String) : String :=
  ⟨pyReplaceAux pat.data rep.data s.data.length s.data⟩

/-- `generate_output_filename` (source lines 72–111).  For all types the
naming root is everything of `base_filename` up to and including the first
`-` (or `base_filename + "-"` when there is none); the expression type is
then dispatched through the `if/elif` chain exactly as in the source —
in particular the generic `startswith('snapchat_')` test on line 99 is
reached before the `startswith('snapchat_same_')` test on line 104. -/
def generate_output_filename (base_filename expression_type : String)
    (variation_number : Nat) (file_extension : String) : String :=
  let pfx : String :=
    if base_filename.data.contains '-' then
      ⟨base_filename.data.take (strFind base_filename '-' + 1)⟩
    else
      base_filename ++ "-"
  if expression_type = "neutral" then
    pfx ++ "baseimage" ++ toString variation_number ++ file_extension
  else if expression_type = "sobbing" then
    pfx ++ "cryingbaseimage" ++ toString variation_number ++ file_extension
  else if strStarts expression_type "snapchat_" then
    let emotion_type := strReplace expression_type "snapchat_" ""
    pfx ++ "snapchat" ++ emotion_type ++ file_extension
  else if strStarts expression_type "snapchat_same_" then
    let emotion_type := strReplace expression_type "snapchat_same_" ""
    pfx ++ "snapchatsame" ++ emotion_type ++ file_extension
  else
    expression_type ++ "_variation_" ++ pad2 variation_number ++ file_extension

/-! ### Purging stale outputs (the deletion loops of `generate_variations`) -/

/-- The deletion loops of `generate_variations` (source lines 425–427 for
`snapchat_same_outfit`, 459–461 for `snapchat`, 484–490 for the default
branch), as a pure function from the output-directory listing, the batch
category and the naming root to the list of filenames that get removed. -/
def purgeTargets (files : List String) (expression_type pfx : String) :
    List String :=
  if expression_type = "snapchat_same_outfit" then
    files.filter (fun file =>
      strStarts file (pfx ++ "snapchatsame") &&
      (strEnds file ".png" || strEnds file ".jpg" || strEnds file ".jpeg"))
  else if expression_type = "snapchat" then
    files.filter (fun file =>
      strStarts file (pfx ++ "snapchat") &&
      (strEnds file ".png" || strEnds file ".jpg" || strEnds file ".jpeg") &&
      !strStarts file (pfx ++ "snapchatsame"))
  else if expression_type = "neutral" then
    files.filter (fun file =>
      strStarts file (pfx ++ "baseimage") &&
      (strEnds file ".png" || strEnds file ".jpg" || strEnds file ".jpeg") &&
      !strStarts file (pfx ++ "cryingbaseimage"))
  else if expression_type = "sobbing" then
    files.filter (fun file =>
      strStarts file (pfx ++ "cryingbaseimage") &&
      (strEnds file ".png" || strEnds file ".jpg" || strEnds file ".jpeg"))
  else
    []

/-! ### Resolving the base image (`get_base_image_path`) -/

/-- Python `s.lower()` (character-wise). -/
def pyLower (s : String) : String :=
  ⟨s.data.map Char.toLower⟩

/-- The extension whitelist of `get_base_image_path` (source line 43). -/
def image_extensions : List String :=
  [".png", ".jpg", ".jpeg", ".webp", ".bmp"]

/-- The per-file test of `get_base_image_path` (source line 47):
`any(file.lower().endswith(ext) for ext in image_extensions)`. -/
def isRecognizedImage (file : String) : Bool :=
  image_extensions.any (fun ext => strEnds (pyLower file) ext)

/-- The filesystem state `get_base_image_path` observes: whether the
`starting_image` directory exists, and its listing when it does. -/
structure DirState where
  present : Bool
  listing : List String

/-- `get_base_image_path` (source lines 32–56): error when the directory is
missing or holds no recognized image; otherwise the first recognized file in
listing order, paired with whether the multiple-candidates warning was
printed (`len(image_files) > 1`). -/
def get_base_image_path (d : DirState) : Except String (String × Bool) :=
  if !d.present then
    Except.error "Starting image directory not found"
  else
    match d.listing.filter isRecognizedImage with
    | [] => Except.error "No image files found in starting_image directory"
    | f :: rest =>
      Except.ok ("starting_image/" ++ f, decide (1 < (f :: rest).length))

/-! ### Per-variation error handling of the batch driver -/

/-- Outcome of one external `generate_content_stream` call (plus the file
write) inside `generate_variation`. -/
inductive StreamOutcome where
  | yieldsImage
  | noImage
  | raises
deriving DecidableEq

/-- `generate_variation` (source lines 288–384): the whole body is wrapped in
`try/except`; a chunk with inline image data sets `file_saved` and breaks, a
stream without one leaves it `False`, and any exception is caught and
reported as `False`.  The function returns the single boolean
`file_saved`. -/
def generate_variation : StreamOutcome → Bool
  | .yieldsImage => true
  | .noImage => false
  | .raises => false

/-- A Python runtime value, as far as the batch loops inspect one: a boolean
or a tuple. -/
inductive PyVal where
  | pyBool (b : Bool)
  | pyTuple (elems : List PyVal)

/-- Python tuple unpacking `a, b = v`: succeeds exactly on a 2-tuple;
a bare boolean raises `TypeError`. -/
def pyUnpack2 : PyVal → Except String (PyVal × PyVal)
  | .pyTuple [a, b] => Except.ok (a, b)
  | .pyTuple _ => Except.error "ValueError: wrong number of values to unpack"
  | .pyBool _ => Except.error "TypeError: cannot unpack non-iterable bool object"

/-- Python truthiness of such a value. -/
def pyTruthyVal : PyVal → Bool
  | .pyBool b => b
  | .pyTuple l => !l.isEmpty

/-- The `for i in range(1, 6)` loop of the default branch of
`generate_variations` (source lines 493–498): each iteration executes
`success, _ = self.generate_variation(...)` — tuple-unpacking the boolean
that `generate_variation` returns — then increments the success counter when
`success` is truthy.  An exception escapes the loop. -/
def defaultBatchLoop : List StreamOutcome → Nat → Except String Nat
  | [], acc => Except.ok acc
  | o :: rest, acc => do
    let (success, _) ← pyUnpack2 (PyVal.pyBool (generate_variation o))
    defaultBatchLoop rest (if pyTruthyVal success then acc + 1 else acc)

/-- The loops of the two snapchat branches of `generate_variations` (source
lines 430–434 and 464–468): `if self.generate_variation(...):
successful_generations += 1`. -/
def snapchatBatchLoop (outcomes : List StreamOutcome) : Nat :=
  outcomes.foldl (fun acc o => if generate_variation o then acc + 1 else acc) 0

/-- `generate_variations` (source lines 386–520), restricted to its
success-counting behaviour: the body is wrapped in `try/except` and any
escaping exception makes it return `0` (lines 518–520); otherwise the count
accumulated by the branch's loop is returned (line 516).  The outcome of
each external call is supplied as an explicit list, one entry per attempted
variation. -/
def generate_variations (expression_type : String)
    (outcomes : List StreamOutcome) : Nat :=
  if expression_type = "snapchat_same_outfit" then
    snapchatBatchLoop outcomes
  else if expression_type = "snapchat" then
    snapchatBatchLoop outcomes
  else
    match defaultBatchLoop outcomes 0 with
    | Except.ok n => n
    | Except.error _ => 0

/-! ### Prompt Composer -/

/-- Python `s.strip()`: drop whitespace from both ends. -/
def pyStrip (s : String) : String :=
  ⟨((s.data.dropWhile Char.isWhitespace).reverse.dropWhile Char.isWhitespace).reverse⟩

/-- `random.choice(l)` for a non-empty list `l`, with the draw supplied as an
explicit index (reduced modulo the list length): some element of `l`. -/
def pyChoice (l : List String) (draw : Nat) : String :=
  l.getD (draw % l.length) ""

/-- The `tops` vocabulary of `generate_random_outfit_prompt` (source lines
142–149; 30 entries, duplicates included). -/
def tops : List String :=
  ["plain t-shirt", "hoodie", "sweater", "cardigan", "blouse", "tank top",
   "long-sleeve shirt", "polo shirt", "button-up shirt", "crop top",
   "plain t-shirt", "graphic tee", "hoodie", "crewneck sweater", "zip-up hoodie",
   "cardigan", "blouse", "tank top", "long-sleeve shirt", "crop top",
   "off-shoulder top", "button-up shirt", "polo shirt", "tube top", "knit top",
   "halter top", "peplum top", "wrap top", "mock neck top", "camisole"]

/-- The `bottoms` vocabulary (source lines 151–159; 29 entries). -/
def bottoms : List String :=
  ["jeans", "leggings", "sweatpants", "shorts", "joggers", "chinos",
   "casual pants", "denim shorts", "yoga pants", "wide-leg trousers",
   "jeans", "denim shorts", "leggings", "joggers", "sweatpants",
   "cargo pants", "bike shorts", "mini skirt", "midi skirt",
   "culottes", "overalls", "capri pants", "khaki shorts", "skort",
   "paperbag waist shorts", "pleated skirt", "track pants", "flare jeans",
   "athletic shorts"]

/-- The `accessories` vocabulary (source lines 161–163; 5 entries, two of
them empty). -/
def accessories : List String :=
  ["", "with a simple necklace", "with small earrings", "with a bracelet", ""]

/-- The random draws one call of `generate_random_outfit_prompt` consumes:
one `random.choice` from each of `tops`, `bottoms`, `accessories`. -/
structure OutfitDraw where
  topIdx : Nat
  bottomIdx : Nat
  accessoryIdx : Nat

/-- `generate_random_outfit_prompt` (source lines 135–170):
`f"neutral colored {top} and {bottom} {accessory}".strip()`. -/
def generate_random_outfit_prompt (d : OutfitDraw) : String :=
  let top := pyChoice tops d.topIdx
  let bottom := pyChoice bottoms d.bottomIdx
  let accessory := pyChoice accessories d.accessoryIdx
  pyStrip ("neutral colored " ++ top ++ " and " ++ bottom ++ " " ++ accessory)

/-- The `bedroom_elements` list of `generate_background_variation` (source
lines 179–190; 10 entries). -/
def bedroom_elements : List String :=
  ["slightly shift the camera angle to show more of the left side of the bedroom",
   "adjust the view to reveal more of the right side of the room",
   "shift the perspective to show a bit more of the background wall",
   "move the viewpoint to include more of the bedroom decor in the background",
   "adjust the angle to show a different section of the room's furniture",
   "shift the frame to reveal more of the bedroom's ambient lighting",
   "change the perspective to show a different corner of the bedroom",
   "modify the view to include more of the bedroom's wall decorations",
   "adjust the framing to show a slightly different portion of the room",
   "shift the camera position to reveal different bedroom elements in the background"]

/-- `generate_background_variation` (source lines 172–192): one
`random.choice` from `bedroom_elements`. -/
def generate_background_variation (draw : Nat) : String :=
  pyChoice bedroom_elements draw

/-- Python truthiness of the optional string parameter `fixed_outfit`
(default `None`): `None` and `""` are falsy, every other string is truthy. -/
def pyTruthy : Option String → Bool
  | none => false
  | some s => s != ""

/-- Head of the fixed-outfit template up to `{background_change}` (source
lines 232–236). -/
def tmplFixedHead : String :=
  "Create a variation of this selfie image with the following changes:\n\n1. CLOTHING: Keep outfit exactly the same.\n\n2. BACKGROUND: "

/-- Head of the random-outfit template up to `{outfit}` (source lines
253–255). -/
def tmplRandHead : String :=
  "Create a variation of this selfie image with the following changes:\n\n1. CLOTHING: Change the person's outfit to: "

/-- Segment of the random-outfit template between `{outfit}` and
`{background_change}` (source lines 255–257). -/
def tmplRandMid : String :=
  ". Keep the style casual and natural-looking.\n\n2. BACKGROUND: "

/-- The shared requirements block between `{background_change}` and
`{expression_change}` (source lines 236–249, identical on lines
257–270). -/
def tmplReqs : String :=
  ". Maintain the same setting as the original input image with a slight perspective change.\n\n3. REQUIREMENTS:\n   - Keep the same person's face and general pose\n   - If the person's arm is extended under the camera, keep it in a selfie position with arm etended below.\n   - Maintain the selfie/portrait style composition\n   - Keep lighting natural and consistent with a bedroom environment\n   - Ensure the outfit looks realistic and well-fitted\n   - Keep the overall mood and atmosphere similar to the original\n   - Do not change any of the decor or bedroom background\n   - Keep the person's position the same\n   - Do not change the setting\n   - No artifacts or filters on the image\n   - No change in camera position"

/-- The closing sentence after `{expression_change}` (source lines 249–251,
identical on lines 270–272). -/
def tmplClose : String :=
  "\n\nGenerate a high-quality, realistic variation that maintains the original's authenticity while incorporating these changes."

/-- The `expression_change` lookup of `create_variation_prompt` (source
lines 214–229). -/
def expressionClause (expression_type : String) : String :=
  if expression_type = "neutral" then
    "\n4. EXPRESSION: alter her expression to a different neutral expression with a change in head tilt."
  else if expression_type = "sobbing" then
    "\n4. EXPRESSION: Change her expression and make it look like she is sobbing."
  else if expression_type = "snapchat_goofy" ∨ expression_type = "snapchat_same_goofy" then
    "\n4. EXPRESSION: have a silly face with side eye. bring camera closer to face."
  else if expression_type = "snapchat_tongue" ∨ expression_type = "snapchat_same_tongue" then
    "\n4. EXPRESSION: have a goofy face with silly tongue out. bring camera closer to face."
  else if expression_type = "snapchat_confused" ∨ expression_type = "snapchat_same_confused" then
    "\n4. EXPRESSION: have a shocked face. bring camera closer to face."
  else if expression_type = "snapchat_shocked" ∨ expression_type = "snapchat_same_shocked" then
    "\n4. EXPRESSION: have a silly confused face. bring camera closer to face."
  else if expression_type = "snapchat_crying" ∨ expression_type = "snapchat_same_crying" then
    "\n4. EXPRESSION: Change her expression and make it look like she is sobbing. Bring camera closer to face"
  else
    ""

/-- `create_variation_prompt` (source lines 194–274).  The two random draws
(`generate_random_outfit_prompt`, `generate_background_variation`) are
supplied as explicit data.  When `fixed_outfit` is truthy the fixed-outfit
f-string (lines 232–251) is used — it interpolates only `background_change`
and `expression_change` — otherwise the random-outfit f-string (lines
253–272), which also interpolates `outfit`. -/
def create_variation_prompt (variation_number : Nat) (expression_type : String)
    (fixed_outfit : Option String) (d : OutfitDraw) (bgDraw : Nat) : String :=
  let outfit :=
    if pyTruthy fixed_outfit then fixed_outfit.getD ""
    else generate_random_outfit_prompt d
  let background_change := generate_background_variation bgDraw
  let expression_change := expressionClause expression_type
  if pyTruthy fixed_outfit then
    tmplFixedHead ++ background_change ++ tmplReqs ++ expression_change ++ tmplClose
  else
    tmplRandHead ++ outfit ++ tmplRandMid ++ background_change ++ tmplReqs ++
      expression_change ++ tmplClose

/-! ### Helper lemmas -/

/-- The empty pattern occurs in every list. -/
theorem occursAux_nil (l : List Char) : occursAux [] l = true := by
  induction l with
  | nil => rfl
  | cons a t ih => simp [occursAux]

/-- Occurrence in a list is preserved by appending on the right. -/
theorem occursAux_append_left (pat a b : List Char) (h : occursAux pat a = true) :
    occursAux pat (a ++ b) = true := by
  induction a with
  | nil =>
    have hp : pat = [] := by simpa [occursAux] using h
    subst hp
    exact occursAux_nil b
  | cons x xs ih =>
    rw [List.cons_append]
    simp only [occursAux, Bool.or_eq_true, beq_iff_eq] at h ⊢
    rcases h with h | h
    · left
      have hl := congrArg List.length h
      simp only [List.length_take, List.length_cons] at hl
      have hlen : pat.length ≤ xs.length + 1 := by
        have h3 : min pat.length (xs.length + 1) ≤ xs.length + 1 := Nat.min_le_right _ _
        omega
      rw [← List.cons_append, List.take_append_of_le_length (by simpa using hlen)]
      exact h
    · right
      exact ih h

/-- A substring of `a` is a substring of `a ++ b`. -/
theorem strOccurs_append_left (pat a b : String) (h : strOccurs pat a = true) :
    strOccurs pat (a ++ b) = true := by
  unfold strOccurs at h ⊢
  rw [String.data_append]
  exact occursAux_append_left _ _ _ h

/-- A concatenation ends with its own right factor. -/
theorem strEnds_append (a b : String) : strEnds (a ++ b) b = true := by
  unfold strEnds
  rw [String.data_append, List.reverse_append, beq_iff_eq,
    show b.data.length = b.data.reverse.length from (List.length_reverse _).symm,
    List.take_left]

/-- Taking one past the first occurrence of `c` yields the hyphen-free
head of the list followed by `c` itself. -/
theorem take_first (c : Char) (l : List Char) (h : l.contains c = true) :
    l.take ((l.takeWhile (fun a => a != c)).length + 1) =
      l.takeWhile (fun a => a != c) ++ [c] := by
  induction l with
  | nil => simp at h
  | cons x xs ih =>
    by_cases hx : x = c
    · subst hx
      simp [List.takeWhile_cons]
    · have hmem : c ∈ x :: xs := by
        simpa [List.contains] using h
      have hxs : xs.contains c = true := by
        rcases List.mem_cons.mp hmem with h1 | h1
        · exact absurd h1.symm hx
        · simpa [List.contains] using h1
      have hne : (x != c) = true := by simp [hx]
      simp only [List.takeWhile_cons, hne, if_true, List.length_cons,
        List.take_succ_cons, List.cons_append]
      rw [ih hxs]

/-- A `filter` returning `f :: rest` splits the list at the first element
satisfying the test. -/
theorem filterDecomp (p : String → Bool) (l : List String) (f : String)
    (rest : List String) (h : l.filter p = f :: rest) :
    ∃ l1 l2, l = l1 ++ f :: l2 ∧ (∀ g ∈ l1, p g = false) ∧ p f = true := by
  induction l with
  | nil => simp at h
  | cons x xs ih =>
    by_cases hx : p x = true
    · rw [List.filter_cons_of_pos hx] at h
      obtain ⟨rfl, -⟩ := List.cons_eq_cons.mp h
      exact ⟨[], xs, rfl, by simp, hx⟩
    · rw [List.filter_cons_of_neg hx] at h
      obtain ⟨l1, l2, rfl, h1, h2⟩ := ih h
      refine ⟨x :: l1, l2, rfl, ?_, h2⟩
      intro g hg
      rcases List.mem_cons.mp hg with rfl | hg
      · exact Bool.not_eq_true _ ▸ hx
      · exact h1 g hg

/-! ### Claim theorems -/

/-- C1: the claim fails on the code.  `generate_output_filename` tests the
generic `snapchat_` pattern (line 99) before `snapchat_same_` (line 104), so
a `snapchat_same_<emotion>` category takes the generic branch and only the
leading `snapchat_` is stripped: the derived name for
`("x-01", "snapchat_same_goofy", 1, ".png")` is `"x-snapchatsame_goofy.png"`,
which differs from the `"x-snapchatsamegoofy.png"` the claim states, while
the plain `snapchat_goofy` case matches the claim. -/
theorem snapchat_same_filename_collapses :
    generate_output_filename "x-01" "snapchat_same_goofy" 1 ".png" = "x-snapchatsame_goofy.png" ∧
    generate_output_filename "x-01" "snapchat_goofy" 1 ".png" = "x-snapchatgoofy.png" ∧
    ("x-snapchatsame_goofy.png" : String) ≠ "x-snapchatsamegoofy.png" :=
  ⟨by decide, by decide, by decide⟩

/-- C2: the claim fails on the code for `neutral` and `sobbing` batches.
Line 495 tuple-unpacks (`success, _ = ...`) the single boolean returned by
`generate_variation`, raising `TypeError` on the very first variation
regardless of its outcome; the outer handler (lines 518–520) then returns 0,
so the batch is aborted and no success count is reported.  The snapchat
branches use the boolean directly and do count per-variation successes
(4 out of 5 when exactly one mid-batch variation fails). -/
theorem neutral_batch_unpacking_aborts :
    (∀ (o : StreamOutcome) (rest : List StreamOutcome),
        generate_variations "neutral" (o :: rest) = 0 ∧
        generate_variations "sobbing" (o :: rest) = 0) ∧
    generate_variations "snapchat"
      [StreamOutcome.yieldsImage, StreamOutcome.raises, StreamOutcome.yieldsImage,
       StreamOutcome.yieldsImage, StreamOutcome.yieldsImage] = 4 := by
  constructor
  · intro o rest
    constructor <;> cases o <;> rfl
  · rfl

/-- C3 counterexample: the fallback branch (line 111) does not prepend the
prefix derived from the base stem — for stem `"selfie-01"` and unrecognized
category `"unknown"` the derived name is `"unknown_variation_07.png"`, not
`"selfie-unknown_variation_07.png"` as the claim requires. -/
theorem fallback_filename_drops_root :
    generate_output_filename "selfie-01" "unknown" 7 ".png" = "unknown_variation_07.png" ∧
    generate_output_filename "selfie-01" "unknown" 7 ".png" ≠ "selfie-unknown_variation_07.png" :=
  ⟨by decide, by decide⟩

/-- A string starting with "snapchat_same_" also starts with
"snapchat_". -/
theorem strStarts_of_same (c : String) (h : strStarts c "snapchat_same_" = true) :
    strStarts c "snapchat_" = true := by
  unfold strStarts at h ⊢
  rw [beq_iff_eq] at h ⊢
  have h9 : ("snapchat_" : String).data.length = 9 := by decide
  have h14 : ("snapchat_same_" : String).data.length = 14 := by decide
  rw [h9]
  rw [h14] at h
  have : c.data.take 9 = List.take 9 (c.data.take 14) := by
    rw [List.take_take]
    norm_num
  rw [this, h]
  decide

/-- C3 (amended): for every category not matching any recognized pattern
(not "neutral", not "sobbing", not starting with "snapchat_"), the derived
output filename is `<category>_variation_<sequenceNumber zero-padded to 2
digits>` plus the extension, with no prefix prepended (the base stem is
ignored); in particular for any such category `deriveFilename(stem, c, 7,
".png")` ends with `"_variation_07.png"`. -/
theorem fallback_filename_form (stem c ext : String) (n : Nat)
    (h1 : c ≠ "neutral") (h2 : c ≠ "sobbing")
    (h3 : strStarts c "snapchat_" = false) :
    generate_output_filename stem c n ext = c ++ "_variation_" ++ pad2 n ++ ext ∧
    strEnds (generate_output_filename stem c 7 ".png") "_variation_07.png" = true := by
  have h4 : strStarts c "snapchat_same_" = false := by
    cases h5 : strStarts c "snapchat_same_"
    · rfl
    · exact absurd (strStarts_of_same c h5) (by simp [h3])
  have key : ∀ (m : Nat) (e : String),
      generate_output_filename stem c m e = c ++ "_variation_" ++ pad2 m ++ e := by
    intro m e
    unfold generate_output_filename
    rw [if_neg h1, if_neg h2, h3, h4]
    simp
  constructor
  · exact key n ext
  · rw [key 7 ".png"]
    have hp : pad2 7 = "07" := by decide
    rw [hp]
    have : c ++ "_variation_" ++ "07" ++ ".png" = c ++ "_variation_07.png" := by
      apply String.ext
      simp only [String.data_append, List.append_assoc]
      rfl
    rw [this]
    exact strEnds_append c "_variation_07.png"

/-- C3 witness: the amended fallback theorem applied at stem "selfie-01"
and concrete unrecognized category "smirking". -/
theorem fallback_witness_t :
    generate_output_filename "selfie-01" "smirking" 3 ".jpg" =
      "smirking" ++ "_variation_" ++ pad2 3 ++ ".jpg" ∧
    strEnds (generate_output_filename "selfie-01" "smirking" 7 ".png") "_variation_07.png" = true :=
  fallback_filename_form "selfie-01" "smirking" ".jpg" 3 (by decide) (by decide) (by decide)

/-- C5: the filename root is the substring of the base stem up to and
including the first `-` (expressed via `takeWhile`), or the stem followed by
`-` when no hyphen exists; category "neutral" derives root + "baseimage" +
number + extension and "sobbing" derives root + "cryingbaseimage" + number +
extension, with the three concrete examples from the spec. -/
theorem naming_root_characterization :
    (∀ (s ext : String) (n : Nat), s.data.contains '-' = true →
        generate_output_filename s "neutral" n ext =
          String.mk (s.data.takeWhile (fun a => a != '-') ++ ['-']) ++ "baseimage" ++
            toString n ++ ext ∧
        generate_output_filename s "sobbing" n ext =
          String.mk (s.data.takeWhile (fun a => a != '-') ++ ['-']) ++ "cryingbaseimage" ++
            toString n ++ ext) ∧
    (∀ (s ext : String) (n : Nat), s.data.contains '-' = false →
        generate_output_filename s "neutral" n ext =
          s ++ "-" ++ "baseimage" ++ toString n ++ ext ∧
        generate_output_filename s "sobbing" n ext =
          s ++ "-" ++ "cryingbaseimage" ++ toString n ++ ext) ∧
    generate_output_filename "selfie-01" "neutral" 3 ".png" = "selfie-baseimage3.png" ∧
    generate_output_filename "selfie-01" "sobbing" 1 ".jpg" = "selfie-cryingbaseimage1.jpg" ∧
    generate_output_filename "noHyphen" "neutral" 2 ".png" = "noHyphen-baseimage2.png" := by
  have hroot : ∀ s : String, s.data.contains '-' = true →
      (⟨s.data.take (strFind s '-' + 1)⟩ : String) =
        String.mk (s.data.takeWhile (fun a => a != '-') ++ ['-']) := by
    intro s h
    exact congrArg String.mk (take_first '-' s.data h)
  refine ⟨?_, ?_, by decide, by decide, by decide⟩
  · intro s ext n h
    constructor
    · unfold generate_output_filename
      rw [if_pos rfl, if_pos h, hroot s h]
    · unfold generate_output_filename
      rw [if_neg (by decide), if_pos rfl, if_pos h, hroot s h]
  · intro s ext n h
    constructor
    · unfold generate_output_filename
      rw [if_pos rfl, if_neg (by rw [h]; decide)]
    · unfold generate_output_filename
      rw [if_neg (by decide), if_pos rfl, if_neg (by rw [h]; decide)]

/-- C5 witness: the hyphen-case characterization applied at the concrete
stem "ab-cd". -/
theorem naming_root_witness_t :
    generate_output_filename "ab-cd" "neutral" 4 ".png" =
      String.mk ("ab-cd".data.takeWhile (fun a => a != '-') ++ ['-']) ++ "baseimage" ++
        toString 4 ++ ".png" :=
  (naming_root_characterization.1 "ab-cd" ".png" 4 (by decide)).1

/-- C6: for every output-directory listing and naming root, no filename
purged before a "snapchat" batch is also purged before a
"snapchat_same_outfit" batch: the snapchat purge test excludes every file
starting with root + "snapchatsame", which is exactly what the same-outfit
purge requires. -/
theorem purge_disjointness (files : List String) (pfx f : String)
    (h : f ∈ purgeTargets files "snapchat" pfx) :
    f ∉ purgeTargets files "snapchat_same_outfit" pfx := by
  unfold purgeTargets at h ⊢
  rw [if_neg (by decide), if_pos rfl] at h
  rw [if_pos rfl]
  rw [List.mem_filter] at h ⊢
  obtain ⟨-, hb⟩ := h
  simp only [Bool.and_eq_true, Bool.not_eq_true'] at hb
  intro hc
  obtain ⟨-, hcb⟩ := hc
  simp only [Bool.and_eq_true] at hcb
  rw [hb.2] at hcb
  exact Bool.false_ne_true hcb.1

/-- C6 witness: the disjointness theorem applied at a concrete listing
containing "x-snapchatgoofy.png". -/
theorem purge_disjointness_witness_t :
    "x-snapchatgoofy.png" ∉
      purgeTargets ["x-snapchatgoofy.png"] "snapchat_same_outfit" "x-" :=
  purge_disjointness ["x-snapchatgoofy.png"] "x-" "x-snapchatgoofy.png" (by decide)

/-- C7: the purge set of a "neutral" batch is exactly the listed files
starting with root + "baseimage" but not root + "cryingbaseimage", the purge
set of a "sobbing" batch is exactly the listed files starting with root +
"cryingbaseimage", and in both cases membership requires one of the
extensions ".png", ".jpg", ".jpeg". -/
theorem purge_neutral_sobbing (files : List String) (pfx f : String) :
    (f ∈ purgeTargets files "neutral" pfx ↔
      f ∈ files ∧ strStarts f (pfx ++ "baseimage") = true ∧
      strStarts f (pfx ++ "cryingbaseimage") = false ∧
      (strEnds f ".png" = true ∨ strEnds f ".jpg" = true ∨ strEnds f ".jpeg" = true)) ∧
    (f ∈ purgeTargets files "sobbing" pfx ↔
      f ∈ files ∧ strStarts f (pfx ++ "cryingbaseimage") = true ∧
      (strEnds f ".png" = true ∨ strEnds f ".jpg" = true ∨ strEnds f ".jpeg" = true)) := by
  unfold purgeTargets
  rw [if_neg (by decide), if_neg (by decide), if_pos rfl]
  rw [if_neg (by decide), if_neg (by decide), if_neg (by decide), if_pos rfl]
  constructor
  · rw [List.mem_filter]
    simp only [Bool.and_eq_true, Bool.or_eq_true, Bool.not_eq_true']
    tauto
  · rw [List.mem_filter]
    simp only [Bool.and_eq_true, Bool.or_eq_true]
    tauto

/-- C7 witness: the neutral characterization applied at a concrete
listing. -/
theorem purge_neutral_sobbing_witness_t :
    "x-baseimage1.png" ∈ purgeTargets ["x-baseimage1.png", "x-other.txt"] "neutral" "x-" :=
  (purge_neutral_sobbing ["x-baseimage1.png", "x-other.txt"] "x-" "x-baseimage1.png").1.mpr
    (by refine ⟨by decide, by decide, by decide, ?_⟩; left; decide)

/-- The multiple-candidates test `len(image_files) > 1` on a `f :: rest`
filter result is equivalent to `rest` being non-empty. -/
theorem warn_flag_eq (f : String) (rest : List String) :
    decide (1 < (f :: rest).length) = !rest.isEmpty := by
  cases rest <;> simp

/-- C8: `get_base_image_path` errors exactly when the starting-image
directory is absent or its listing has no file with a recognized image
extension (matched case-insensitively via `lower()`); otherwise it returns
the first recognized file in listing order — every earlier listing entry is
unrecognized — and reports the multiple-candidates warning exactly when more
than one recognized file exists. -/
theorem base_image_resolution (d : DirState) :
    ((∃ e, get_base_image_path d = Except.error e) ↔
        d.present = false ∨ d.listing.filter isRecognizedImage = []) ∧
    (∀ (f : String) (rest : List String), d.present = true →
        d.listing.filter isRecognizedImage = f :: rest →
        get_base_image_path d =
          Except.ok ("starting_image/" ++ f, !rest.isEmpty) ∧
        ∃ l1 l2, d.listing = l1 ++ f :: l2 ∧
          (∀ g ∈ l1, isRecognizedImage g = false) ∧ isRecognizedImage f = true) := by
  constructor
  · constructor
    · rintro ⟨e, he⟩
      unfold get_base_image_path at he
      by_cases hp : d.present = true
      · rw [hp] at he
        simp only [Bool.not_true, Bool.false_eq_true, if_false] at he
        cases hf : d.listing.filter isRecognizedImage with
        | nil => exact Or.inr rfl
        | cons f rest =>
          rw [hf] at he
          exact absurd he (by simp)
      · exact Or.inl (by simpa using hp)
    · intro h
      unfold get_base_image_path
      rcases h with h | h
      · rw [h]
        exact ⟨_, rfl⟩
      · by_cases hp : d.present = true
        · rw [hp, h]
          exact ⟨_, rfl⟩
        · have hp2 : d.present = false := by simpa using hp
          rw [hp2]
          exact ⟨_, rfl⟩
  · intro f rest hp hf
    constructor
    · unfold get_base_image_path
      rw [hp, hf]
      simp only [Bool.not_true, Bool.false_eq_true, if_false]
      rw [warn_flag_eq]
    · obtain ⟨l1, l2, hl, h1, h2⟩ := filterDecomp _ _ _ _ hf
      exact ⟨l1, l2, hl, h1, h2⟩

/-- C8 witness: resolution applied to a present directory listing
["notes.txt", "b.PNG", "c.jpg"]: the first recognized file "b.PNG" (upper
case extension) is returned and the warning fires. -/
theorem base_image_resolution_witness_t :
    get_base_image_path ⟨true, ["notes.txt", "b.PNG", "c.jpg"]⟩ =
      Except.ok ("starting_image/" ++ "b.PNG", !(["c.jpg"] : List String).isEmpty) :=
  ((base_image_resolution ⟨true, ["notes.txt", "b.PNG", "c.jpg"]⟩).2 "b.PNG" ["c.jpg"]
    rfl (by decide)).1

/-- C4 counterexample: with a non-empty fixed outfit the composed prompt
does not contain the lowercase literal "keep outfit exactly the same" — the
template (line 234) capitalizes it as "Keep outfit exactly the same." -/
theorem fixed_outfit_lowercase_missing :
    strOccurs "keep outfit exactly the same"
      (create_variation_prompt 1 "snapchat_same_goofy" (some "red hoodie") ⟨0, 0, 0⟩ 0) =
      false := by decide

/-- C4 (amended): for every truthy (non-empty) fixed outfit the composed
prompt contains the literal substring "Keep outfit exactly the same"
(capitalized as in the template), and the prompt is independent of the
outfit draws: any two random-outfit draws yield the identical string, so no
sampled or sentinel outfit value can occur in it. -/
theorem fixed_outfit_clause_and_independence (n : Nat) (cat : String)
    (fo : Option String) (h : pyTruthy fo = true) (d : OutfitDraw) (bg : Nat) :
    strOccurs "Keep outfit exactly the same"
      (create_variation_prompt n cat fo d bg) = true ∧
    ∀ d2 : OutfitDraw,
      create_variation_prompt n cat fo d bg = create_variation_prompt n cat fo d2 bg := by
  constructor
  · unfold create_variation_prompt
    rw [h]
    simp only [if_true]
    apply strOccurs_append_left
    apply strOccurs_append_left
    apply strOccurs_append_left
    apply strOccurs_append_left
    decide
  · intro d2
    unfold create_variation_prompt
    rw [h]
    rfl

/-- C4 witness: the amended theorem applied at fixed outfit "blue jeans"
with two different concrete outfit draws. -/
theorem fixed_outfit_witness_t :
    strOccurs "Keep outfit exactly the same"
      (create_variation_prompt 2 "sobbing" (some "blue jeans") ⟨1, 2, 3⟩ 4) = true ∧
    create_variation_prompt 2 "sobbing" (some "blue jeans") ⟨1, 2, 3⟩ 4 =
      create_variation_prompt 2 "sobbing" (some "blue jeans") ⟨7, 8, 9⟩ 4 :=
  ⟨(fixed_outfit_clause_and_independence 2 "sobbing" (some "blue jeans") (by decide)
      ⟨1, 2, 3⟩ 4).1,
   (fixed_outfit_clause_and_independence 2 "sobbing" (some "blue jeans") (by decide)
      ⟨1, 2, 3⟩ 4).2 ⟨7, 8, 9⟩⟩

/-- C9: the composed prompt does not depend on the variation number: for
any two variation numbers, the same category, fixed outfit and random draws
produce identical strings (the parameter is accepted but never used). -/
theorem variation_number_unused (n m : Nat) (cat : String) (fo : Option String)
    (d : OutfitDraw) (bg : Nat) :
    create_variation_prompt n cat fo d bg = create_variation_prompt m cat fo d bg := rfl

/-- C10: an empty-string fixed outfit is falsy, hence treated exactly as
an absent one: the prompt equals the no-fixed-outfit prompt for the same
draws, and it uses the "Change the person's outfit to" template. -/
theorem empty_outfit_is_absent (n : Nat) (cat : String) (d : OutfitDraw) (bg : Nat) :
    create_variation_prompt n cat (some "") d bg = create_variation_prompt n cat none d bg ∧
    strOccurs "Change the person's outfit to"
      (create_variation_prompt n cat (some "") d bg) = true := by
  constructor
  · rfl
  · unfold create_variation_prompt
    have h : pyTruthy (some "") = false := rfl
    rw [h]
    simp only [Bool.false_eq_true, if_false]
    apply strOccurs_append_left
    apply strOccurs_append_left
    apply strOccurs_append_left
    apply strOccurs_append_left
    apply strOccurs_append_left
    apply strOccurs_append_left
    decide


end BaseImageEditor
